import Mathlib

/-!
Verification model of the reverse-swap engine of the breez-sdk repository
(`libs/sdk-core/src/reverseswap.rs` and `libs/sdk-core/src/persist/reverseswap.rs`).

The Rust code is shallowly embedded: machine integers become `Nat` with explicit
`% 2^32` / `% 2^64` where Rust release-mode wrapping arithmetic matters, fallible
Rust functions returning `anyhow::Result` become `Except String`, and external
collaborators (the Boltz provider, the chain service, secp256k1 signing and
sighash computation, the base58 branch of address parsing) are passed in as
explicit function arguments, so that every theorem quantifies over their
behaviour.  Address parsing for bech32 (segwit) addresses, which the code relies
on through `bitcoin::Address::from_str` and `Address::address_type`, is embedded
concretely (BIP-173/BIP-350 decoding), restricted to lower-case strings — the
library additionally accepts the all-upper-case form, which no claim exercises.
-/

namespace BreezRS

/-! ## Hex decoding (model of `bitcoin_hashes::hex::FromHex` for `Script::from_hex`) -/

def hexDigit (c : Char) : Option Nat :=
  if '0' ≤ c ∧ c ≤ '9' then some (c.toNat - '0'.toNat)
  else if 'a' ≤ c ∧ c ≤ 'f' then some (c.toNat - 'a'.toNat + 10)
  else if 'A' ≤ c ∧ c ≤ 'F' then some (c.toNat - 'A'.toNat + 10)
  else none

def hexDecodeList : List Char → Option (List Nat)
  | [] => some []
  | [_] => none
  | a :: b :: rest =>
    match hexDigit a, hexDigit b, hexDecodeList rest with
    | some hi, some lo, some tl => some ((hi * 16 + lo) :: tl)
    | _, _, _ => none

def hexDecode (s : String) : Option (List Nat) :=
  hexDecodeList s.toList

/-! ## Bech32 / bech32m decoding (model of the bech32 path of `Address::from_str`
in rust-bitcoin 0.29, which the code uses both to validate the destination
address and to classify the lockup address). -/

def bech32Charset : List Char := "qpzry9x8gf2tvdw0s3jn54khce6mua7l".toList

def bech32CharValue (c : Char) : Option Nat :=
  bech32Charset.findIdx? (fun x => x = c)

def bech32Gen : List Nat :=
  [0x3b6a57b2, 0x26508e6d, 0x1ea119fa, 0x3d4233dd, 0x2a1462b3]

def bech32PolymodStep (chk v : Nat) : Nat :=
  let b := chk >>> 25
  let chk2 := ((chk % 2 ^ 25) <<< 5) ^^^ v
  (List.range 5).foldl
    (fun acc i => if (b >>> i) % 2 = 1 then acc ^^^ bech32Gen.getD i 0 else acc) chk2

def bech32Polymod (values : List Nat) : Nat :=
  values.foldl bech32PolymodStep 1

def bech32HrpExpand (hrp : List Char) : List Nat :=
  hrp.map (fun c => c.toNat >>> 5) ++ [0] ++ hrp.map (fun c => c.toNat % 32)

/-- Checksum constant distinguishing bech32 (BIP-173) from bech32m (BIP-350). -/
inductive Bech32Variant
  | Bech32
  | Bech32m
deriving DecidableEq, Repr

def bech32ChecksumOf (hrp : List Char) (data : List Nat) : Option Bech32Variant :=
  let pm := bech32Polymod (bech32HrpExpand hrp ++ data)
  if pm = 1 then some Bech32Variant.Bech32
  else if pm = 0x2bc830a3 then some Bech32Variant.Bech32m
  else none

/-- `convertbits(data, 5, 8, pad=false)` of the BIP-173 reference implementation,
used to turn the u5 payload into witness-program bytes. -/
def convert5to8Aux : List Nat → Nat → Nat → List Nat → Option (List Nat)
  | [], acc, bits, out =>
    if 5 ≤ bits then none
    else if (acc <<< (8 - bits)) % 256 ≠ 0 then none
    else some out.reverse
  | v :: rest, acc, bits, out =>
    let acc2 := ((acc <<< 5) ||| v) % 2 ^ 12
    let bits2 := bits + 5
    if 8 ≤ bits2 then
      convert5to8Aux rest acc2 (bits2 - 8) (((acc2 >>> (bits2 - 8)) % 256) :: out)
    else
      convert5to8Aux rest acc2 bits2 out

def convert5to8 (data : List Nat) : Option (List Nat) :=
  convert5to8Aux data 0 0 []

/-- Split a candidate bech32 string at the last separator character,
returning the human-readable part and the data characters. -/
def splitLastSep (cs : List Char) : Option (List Char × List Char) :=
  let n := (cs.reverse.takeWhile (fun c => c ≠ '1')).length
  if n < cs.length then
    some (cs.take (cs.length - n - 1), cs.drop (cs.length - n))
  else none

inductive Network
  | Bitcoin
  | Testnet
  | Signet
  | Regtest
deriving DecidableEq, Repr, Inhabited

/-- The bech32 human-readable parts recognised by `Address::from_str`;
any other prefix falls through to the base58 parsing branch. -/
def networkOfHrp (hrp : List Char) : Option Network :=
  if hrp = "bc".toList then some Network.Bitcoin
  else if hrp = "tb".toList then some Network.Testnet
  else if hrp = "bcrt".toList then some Network.Regtest
  else none

inductive AddressPayload
  | PubkeyHash (h : List Nat)
  | ScriptHash (h : List Nat)
  | WitnessProgram (version : Nat) (program : List Nat)
deriving DecidableEq, Repr, Inhabited

structure Address where
  network : Network
  payload : AddressPayload
deriving DecidableEq, Repr, Inhabited

/-- Decode the data part of a segwit address: verify charset and checksum,
decode witness version and program, and apply the BIP-173/BIP-350 constraints
enforced by rust-bitcoin 0.29 (`2 ≤ |program| ≤ 40`, version 0 programs of
length 20 or 32, version/variant agreement, version ≤ 16). -/
def decodeSegwitData (hrp : List Char) (dataChars : List Char) : Option (Nat × List Nat) :=
  if dataChars.length < 6 then none
  else
    match dataChars.mapM bech32CharValue with
    | none => none
    | some values =>
      match bech32ChecksumOf hrp values with
      | none => none
      | some variant =>
        let payloadValues := values.take (values.length - 6)
        match payloadValues with
        | [] => none
        | version :: payload =>
          if version > 16 then none
          else
            match convert5to8 payload with
            | none => none
            | some program =>
              if program.length < 2 ∨ program.length > 40 then none
              else if version = 0 ∧ variant ≠ Bech32Variant.Bech32 then none
              else if version ≠ 0 ∧ variant ≠ Bech32Variant.Bech32m then none
              else if version = 0 ∧ program.length ≠ 20 ∧ program.length ≠ 32 then none
              else some (version, program)

/-- Model of `bitcoin::Address::from_str` (rust-bitcoin 0.29).  The bech32
branch is embedded concretely; the base58 branch (legacy P2PKH/P2SH addresses)
is supplied by the caller as `b58`, so every theorem holds for any behaviour of
that branch.  Only lower-case bech32 strings are modelled (see header note). -/
def Address.from_str (b58 : String → Option Address) (s : String) : Option Address :=
  let cs := s.toList
  if cs.length > 90 then none
  else
    match splitLastSep cs with
    | some (hrp, dataChars) =>
      match networkOfHrp hrp with
      | some net =>
        match decodeSegwitData hrp dataChars with
        | some (version, program) =>
          some { network := net, payload := AddressPayload.WitnessProgram version program }
        | none => none
      | none => b58 s
    | none => b58 s

inductive AddressType
  | P2pkh
  | P2sh
  | P2wpkh
  | P2wsh
  | P2tr
deriving DecidableEq, Repr

/-- Model of `Address::address_type` (rust-bitcoin 0.29). -/
def Address.address_type (a : Address) : Option AddressType :=
  match a.payload with
  | AddressPayload.PubkeyHash _ => some AddressType.P2pkh
  | AddressPayload.ScriptHash _ => some AddressType.P2sh
  | AddressPayload.WitnessProgram version program =>
    if version = 0 ∧ program.length = 20 then some AddressType.P2wpkh
    else if version = 0 ∧ program.length = 32 then some AddressType.P2wsh
    else if version = 1 ∧ program.length = 32 then some AddressType.P2tr
    else none

/-- Model of `Address::script_pubkey` (rust-bitcoin 0.29), as a byte list. -/
def Address.script_pubkey (a : Address) : List Nat :=
  match a.payload with
  | AddressPayload.PubkeyHash h => [0x76, 0xa9, 0x14] ++ h ++ [0x88, 0xac]
  | AddressPayload.ScriptHash h => [0xa9, 0x14] ++ h ++ [0x87]
  | AddressPayload.WitnessProgram version program =>
    (if version = 0 then [0] else [0x50 + version]) ++ [program.length] ++ program

/-! ## Bitcoin transaction model (the fragment of rust-bitcoin 0.29 used by
`create_claim_tx`): transactions as structured data, plus `strippedsize`,
the byte length of the transaction serialized without witness data. -/

structure OutPoint where
  txid : List Nat
  vout : Nat
deriving DecidableEq, Repr, Inhabited

structure TxIn where
  previous_output : OutPoint
  script_sig : List Nat
  sequence : Nat
  witness : List (List Nat)
deriving DecidableEq, Repr, Inhabited

structure TxOut where
  value : Nat
  script_pubkey : List Nat
deriving DecidableEq, Repr, Inhabited

structure Transaction where
  version : Int
  lock_time : Nat
  input : List TxIn
  output : List TxOut
deriving DecidableEq, Repr, Inhabited

/-- Byte length of a Bitcoin `CompactSize` variable-length integer. -/
def varIntLen (n : Nat) : Nat :=
  if n < 0xFD then 1 else if n < 0x10000 then 3 else if n < 0x100000000 then 5 else 9

/-- Serialized length of one input without its witness: 36-byte outpoint,
compact-size script length, script bytes, 4-byte sequence. -/
def txInStrippedLen (i : TxIn) : Nat :=
  36 + varIntLen i.script_sig.length + i.script_sig.length + 4

/-- Serialized length of one output: 8-byte value, compact-size script length,
script bytes. -/
def txOutLen (o : TxOut) : Nat :=
  8 + varIntLen o.script_pubkey.length + o.script_pubkey.length

/-- Model of `Transaction::strippedsize` (rust-bitcoin 0.29): the size of the
transaction serialized in the pre-segwit format, i.e. without any witness data
and without the segwit marker/flag bytes. -/
def Transaction.strippedsize (t : Transaction) : Nat :=
  4 + varIntLen t.input.length + (t.input.map txInStrippedLen).sum
    + varIntLen t.output.length + (t.output.map txOutLen).sum + 4

/-! ## Data model (`ReverseSwapInfo` and the status enums).

`BoltzApiReverseSwapStatus` and `ReverseSwapStatus` are declared in
`boltzswap.rs` / `models.rs`, which are not among the provided sources; the
variants and the derived `status()` are modelled from the spec (§3): the
provider-reported lifecycle is creation acknowledged → lock transaction seen
unconfirmed → lock transaction confirmed → claim transaction seen / expired,
adopted verbatim, with `ClaimTxSeen` and `Expired` the terminal statuses.
`SwapCreated`, `LockTxConfirmed`, `ClaimTxSeen` and `Expired` are the variant
names the provided sources use. -/

inductive BoltzApiReverseSwapStatus
  | SwapCreated
  | LockTxMempool
  | LockTxConfirmed
  | InvoiceSettled
  | SwapExpired
deriving DecidableEq, Repr

inductive ReverseSwapStatus
  | Created
  | LockTxMempool
  | LockTxConfirmed
  | ClaimTxSeen
  | Expired
deriving DecidableEq, Repr

structure ReverseSwapInfoCached where
  lockup_address : String
  onchain_amount_sat : Nat
deriving DecidableEq, Repr

structure ReverseSwapInfo where
  id : String
  created_at : Int
  local_preimage : List Nat
  local_private_key : List Nat
  destination_address : String
  boltz_api_status : BoltzApiReverseSwapStatus
  hodl_bolt11 : String
  redeem_script : String
  cache : ReverseSwapInfoCached
deriving DecidableEq, Repr

/-- Modelled from the spec: `ReverseSwapInfo::status()` (declared in
`models.rs`, not among the provided sources) maps the persisted
provider-reported status onto the engine's lifecycle vocabulary verbatim
(§3 of the spec). -/
def ReverseSwapInfo.status (rs : ReverseSwapInfo) : ReverseSwapStatus :=
  match rs.boltz_api_status with
  | BoltzApiReverseSwapStatus.SwapCreated => ReverseSwapStatus.Created
  | BoltzApiReverseSwapStatus.LockTxMempool => ReverseSwapStatus.LockTxMempool
  | BoltzApiReverseSwapStatus.LockTxConfirmed => ReverseSwapStatus.LockTxConfirmed
  | BoltzApiReverseSwapStatus.InvoiceSettled => ReverseSwapStatus.ClaimTxSeen
  | BoltzApiReverseSwapStatus.SwapExpired => ReverseSwapStatus.Expired

/-! ## Swap store (`persist/reverseswap.rs`)

The store's logical state is the list of persisted swap rows.  SQLite itself is
not modelled: an `INSERT` that violates the primary key fails, an `UPDATE`
whose `WHERE` clause matches nothing succeeds and affects zero rows, and a
`SELECT` returns the rows in insertion order. -/

def insert_reverse_swap (store : List ReverseSwapInfo) (rsi : ReverseSwapInfo) :
    Except String (List ReverseSwapInfo) :=
  if store.any (fun rs => rs.id = rsi.id) then Except.error "DuplicateId"
  else Except.ok (store ++ [rsi])

/-- Model of `SqliteStorage::update_reverse_swap_boltz_status`: a plain SQL
`UPDATE ... WHERE id=:id`, which succeeds whether or not any row matches. -/
def update_reverse_swap_boltz_status (store : List ReverseSwapInfo) (id : String)
    (boltz_status : BoltzApiReverseSwapStatus) : Except String (List ReverseSwapInfo) :=
  Except.ok (store.map fun rs =>
    if rs.id = id then { rs with boltz_api_status := boltz_status } else rs)

/-- Model of `SqliteStorage::get_monitored_reverse_swaps`: filter out the
"final" statuses `Expired` and `ClaimTxSeen`. -/
def get_monitored_reverse_swaps (store : List ReverseSwapInfo) : List ReverseSwapInfo :=
  let non_monitored_states := [ReverseSwapStatus.Expired, ReverseSwapStatus.ClaimTxSeen]
  store.filter (fun rs => ¬ non_monitored_states.contains rs.status)

/-- A raw joined row of `reverse_swaps LEFT JOIN reverse_swaps_info`: each
column may be `NULL`/absent (in particular the two joined cache columns, when
no `reverse_swaps_info` row exists for the id). -/
structure RawRow where
  id : Option String
  created_at : Option Int
  local_preimage : Option (List Nat)
  local_private_key : Option (List Nat)
  destination_address : Option String
  boltz_api_status : Option BoltzApiReverseSwapStatus
  hodl_bolt11 : Option String
  redeem_script : Option String
  lockup_address : Option String
  onchain_amount_sat : Option Nat
deriving DecidableEq, Repr

/-- `row.get(...)` fails (`rusqlite::Error`) when the column is `NULL` or
missing. -/
def columnGet {α : Type} (x : Option α) : Except String α :=
  match x with
  | some v => Except.ok v
  | none => Except.error "InvalidColumnType"

/-- Model of `SqliteStorage::sql_row_to_reverse_swap`. -/
def sql_row_to_reverse_swap (row : RawRow) : Except String ReverseSwapInfo := do
  let id ← columnGet row.id
  let created_at ← columnGet row.created_at
  let local_preimage ← columnGet row.local_preimage
  let local_private_key ← columnGet row.local_private_key
  let destination_address ← columnGet row.destination_address
  let boltz_api_status ← columnGet row.boltz_api_status
  let hodl_bolt11 ← columnGet row.hodl_bolt11
  let redeem_script ← columnGet row.redeem_script
  let lockup_address ← columnGet row.lockup_address
  let onchain_amount_sat ← columnGet row.onchain_amount_sat
  pure { id := id, created_at := created_at, local_preimage := local_preimage,
         local_private_key := local_private_key,
         destination_address := destination_address,
         boltz_api_status := boltz_api_status, hodl_bolt11 := hodl_bolt11,
         redeem_script := redeem_script,
         cache := { lockup_address := lockup_address,
                    onchain_amount_sat := onchain_amount_sat } }

/-- Model of `SqliteStorage::list_reverse_swaps`: the row iterator is collected
with `.map(|i| i.unwrap())`, so a single failing row does not surface as an
error — it panics.  The panic is modelled as `none`; `some` is the normal
return. -/
def list_reverse_swaps_db : List RawRow → Option (List ReverseSwapInfo)
  | [] => some []
  | row :: rest =>
    match (sql_row_to_reverse_swap row).toOption, list_reverse_swaps_db rest with
    | some rs, some tl => some (rs :: tl)
    | _, _ => none

/-- `get_monitored_reverse_swaps` as reached from the database rows:
`list_reverse_swaps` (which may panic) followed by the status filter. -/
def get_monitored_reverse_swaps_db (rows : List RawRow) : Option (List ReverseSwapInfo) :=
  (list_reverse_swaps_db rows).map get_monitored_reverse_swaps

/-! ## Claim transaction builder (`BTCSendSwap::create_claim_tx`)

The chain service is abstracted away: the confirmed UTXO set that
`get_utxos(lockup_address, address_transactions(...))` yields, and the
`half_hour_fee` tier of `recommended_fees()`, are passed in directly.
secp256k1 is abstracted as two function arguments:

* `sighash tx index script value ty` stands for
  `SighashCache::new(&tx).segwit_signature_hash(index, &script, value, ty)`
  (with `EcdsaSighashType::All = 0x01`);
* `sign priv msg` stands for the DER serialization of
  `sign_ecdsa(Message::from_slice(msg), SecretKey::from_slice(priv))`.

All u32/u64 arithmetic of the fee computation keeps Rust's release-mode
wrapping semantics via explicit `% 2^32` / `% 2^64` (in a debug build the
overflowing cases panic instead). -/

structure Utxo where
  out : OutPoint
  value : Nat
deriving DecidableEq, Repr, Inhabited

abbrev SighashFn := Transaction → Nat → List Nat → Nat → Nat → List Nat

abbrev SignFn := List Nat → List Nat → List Nat

/-- `utxos.confirmed.iter().fold(0, |accum, item| accum + item.value as u64)`. -/
def sum_confirmed (utxos : List Utxo) : Nat :=
  utxos.foldl (fun accum item => (accum + item.value) % 2 ^ 64) 0

/-- The transaction as first constructed: one input per confirmed UTXO with
empty script-sig, zero sequence and empty witness, and a single output paying
the whole confirmed amount to the destination. -/
def unsigned_claim_tx (destination_addr : Address) (utxos : List Utxo) : Transaction :=
  { version := 2
    lock_time := 0
    input := utxos.map fun utxo =>
      { previous_output := utxo.out, script_sig := [], sequence := 0, witness := [] }
    output := [{ value := sum_confirmed utxos,
                 script_pubkey := destination_addr.script_pubkey }] }

/-- `refund_witness_input_size: u32 = 1 + 1 + 8 + 73 + 1 + 32 + 1 + 100`. -/
def refund_witness_input_size : Nat := 1 + 1 + 8 + 73 + 1 + 32 + 1 + 100

/-- `tx.strippedsize() as u32 * WITNESS_SCALE_FACTOR as u32
    + refund_witness_input_size * txins.len() as u32` (u32, wrapping). -/
def claim_tx_weight (stripped n : Nat) : Nat :=
  ((stripped % 2 ^ 32) * 4 % 2 ^ 32 + refund_witness_input_size * (n % 2 ^ 32) % 2 ^ 32)
    % 2 ^ 32

/-- `(tx_weight * sat_per_vbyte / WITNESS_SCALE_FACTOR as u32) as u64`
(u32, wrapping multiply, truncating division). -/
def claim_tx_fees (stripped n sat_per_vbyte : Nat) : Nat :=
  claim_tx_weight stripped n * sat_per_vbyte % 2 ^ 32 / 4

/-- Modelled from the spec: the fee formula the specification states
(`Fee = ceil(weight * sat_per_vbyte / 4)` with
`weight = stripped_size * 4 + FIXED_WITNESS_INPUT_WEIGHT * n`), written from
the spec's words for comparison against the code's `claim_tx_fees`. -/
def spec_fee_ceil (stripped n sat_per_vbyte : Nat) : Nat :=
  ((stripped * 4 + refund_witness_input_size * n) * sat_per_vbyte + 3) / 4

/-- `tx.output[0].value = v`. -/
def set_first_output_value (tx : Transaction) (v : Nat) : Transaction :=
  { tx with output := match tx.output with
      | o :: rest => { o with value := v } :: rest
      | [] => [] }

/-- Erase every input's witness; relates the returned signed transaction to the
transaction over which the signature hashes were computed. -/
def clear_witnesses (tx : Transaction) : Transaction :=
  { tx with input := tx.input.map fun i => { i with witness := [] } }

/-- The transaction of the P2WSH branch after the fee deduction
(`tx.output[0].value = confirmed_amount - fees`) and before signing:
`confirmed_amount - fees` is a wrapping u64 subtraction — the code performs no
`FeeExceedsAmount`/`NoConfirmedFunds` check before it. -/
def fee_adjusted_claim_tx (destination_addr : Address) (utxos : List Utxo)
    (sat_per_vbyte : Nat) : Transaction :=
  let tx := unsigned_claim_tx destination_addr utxos
  let confirmed_amount := sum_confirmed utxos
  let fees := claim_tx_fees tx.strippedsize utxos.length sat_per_vbyte
  set_first_output_value tx ((confirmed_amount + 2 ^ 64 - fees) % 2 ^ 64)

/-- The `Some(AddressType::P2wsh)` branch of `create_claim_tx`: build the
fee-adjusted transaction, then sign each input over it and set the input's
witness stack to `[sig ++ [sighash byte], preimage, redeem script]`. -/
def build_claim_tx_p2wsh (sighash : SighashFn) (sign : SignFn) (rs : ReverseSwapInfo)
    (destination_addr : Address) (redeem_script : List Nat) (utxos : List Utxo)
    (sat_per_vbyte : Nat) : Transaction :=
  let tx := fee_adjusted_claim_tx destination_addr utxos sat_per_vbyte
  let signed_inputs := (List.range tx.input.length).map fun index =>
    let input := tx.input.getD index default
    let h := sighash tx index redeem_script (utxos.getD index default).value 1
    let sigvec := sign rs.local_private_key h ++ [1]
    { input with witness := [sigvec, rs.local_preimage, redeem_script] }
  { tx with input := signed_inputs }

/-- Model of `BTCSendSwap::create_claim_tx`: parse the lockup and destination
addresses and the redeem script hex, require a P2WSH lockup address, and build
the signed claim transaction. -/
def create_claim_tx (b58 : String → Option Address) (sighash : SighashFn) (sign : SignFn)
    (rs : ReverseSwapInfo) (utxos : List Utxo) (sat_per_vbyte : Nat) :
    Except String Transaction :=
  match Address.from_str b58 rs.cache.lockup_address with
  | none => Except.error "address parse error"
  | some lockup_addr =>
    match Address.from_str b58 rs.destination_address with
    | none => Except.error "address parse error"
    | some destination_addr =>
      match hexDecode rs.redeem_script with
      | none => Except.error "hex decode error"
      | some redeem_script =>
        match lockup_addr.address_type with
        | some AddressType.P2wsh =>
          Except.ok
            (build_claim_tx_p2wsh sighash sign rs destination_addr redeem_script utxos
              sat_per_vbyte)
        | some _ => Except.error "Unexpected lock address type"
        | none => Except.error "Could not determine lock address type"

/-! ## Reverse swap orchestrator (`BTCSendSwap`)

`create_swap_keys()` (declared in `swap.rs`, not among the provided sources) is
modelled from the spec as an opaque bundle of fresh secret material together
with its derived hex strings, supplied by the caller.  The Boltz provider and
the chain service are function arguments. -/

structure SwapKeys where
  preimage : List Nat
  priv_key : List Nat
  preimage_hash_hex : String
  public_key_hex : String

structure CreateReverseSwapResponse where
  id : String
  invoice : String
  redeem_script : String
  onchain_amount : Nat
  timeout_block_height : Nat
  lockup_address : String

inductive BoltzApiCreateReverseSwapResponse
  | BoltzApiSuccess (response : CreateReverseSwapResponse)
  | BoltzApiError (error : String)

/-- `reverse_swapper_api.create_reverse_swap(amount, preimage_hash, pubkey,
pair_hash, routing_node)`: the transport may fail (`Except.error`), or the API
may answer with a success or a business error. -/
abbrev ProviderCreateFn :=
  Nat → String → String → String → String → Except String BoltzApiCreateReverseSwapResponse

/-- `reverse_swapper_api.get_swap_status(id)`. -/
abbrev ProviderStatusFn := String → Except String BoltzApiReverseSwapStatus

/-- Model of `BTCSendSwap::validate_create_reverse_swap`. -/
def validate_create_reverse_swap (b58 : String → Option Address)
    (onchain_destination_address : String) : Except String Unit :=
  match Address.from_str b58 onchain_destination_address with
  | some _ => Except.ok ()
  | none => Except.error "Invalid destination address"

/-- Model of `BTCSendSwap::create_reverse_swap`: validate the destination
address, call the provider, and on success persist and return the new record.
Returns the call's result together with the store after the call. -/
def create_reverse_swap (b58 : String → Option Address) (provider : ProviderCreateFn)
    (store : List ReverseSwapInfo) (keys : SwapKeys) (now : Int) (amount_sat : Nat)
    (onchain_destination_address pair_hash routing_node : String) :
    Except String ReverseSwapInfo × List ReverseSwapInfo :=
  match validate_create_reverse_swap b58 onchain_destination_address with
  | Except.error e => (Except.error e, store)
  | Except.ok _ =>
    match provider amount_sat keys.preimage_hash_hex keys.public_key_hex pair_hash
        routing_node with
    | Except.error e => (Except.error e, store)
    | Except.ok (BoltzApiCreateReverseSwapResponse.BoltzApiError err) =>
      (Except.error err, store)
    | Except.ok (BoltzApiCreateReverseSwapResponse.BoltzApiSuccess response) =>
      let rev_swap_info : ReverseSwapInfo :=
        { created_at := now
          destination_address := onchain_destination_address
          hodl_bolt11 := response.invoice
          local_preimage := keys.preimage
          local_private_key := keys.priv_key
          id := response.id
          boltz_api_status := BoltzApiReverseSwapStatus.SwapCreated
          redeem_script := response.redeem_script
          cache := { lockup_address := response.lockup_address,
                     onchain_amount_sat := response.onchain_amount } }
      match insert_reverse_swap store rev_swap_info with
      | Except.error e => (Except.error e, store)
      | Except.ok store2 => (Except.ok rev_swap_info, store2)

/-- The persister's `update_reverse_swap_boltz_status(&id, &status)` as the
monitoring loop sees it: the logical row update of
`update_reverse_swap_boltz_status` sits behind a SQLite connection that can
fail, so the loop is parameterised over the persister's behaviour;
`update_reverse_swap_boltz_status` itself is the reference instantiation. -/
abbrev UpdateStatusFn :=
  List ReverseSwapInfo → String → BoltzApiReverseSwapStatus →
    Except String (List ReverseSwapInfo)

/-- The status-refresh loop body of `refresh_monitored_reverse_swaps`: poll
each monitored swap (`?` — a poll failure aborts the whole loop), then persist
the new status, logging and continuing when the persist fails. -/
def refresh_go (poll : ProviderStatusFn) (update_status : UpdateStatusFn) :
    List ReverseSwapInfo → List ReverseSwapInfo → Except String (List ReverseSwapInfo)
  | [], store => Except.ok store
  | rs :: rest, store =>
    match poll rs.id with
    | Except.error e => Except.error e
    | Except.ok new_boltz_status =>
      let store2 :=
        match update_status store rs.id new_boltz_status with
        | Except.ok s => s
        | Except.error _ => store
      refresh_go poll update_status rest store2

/-- Model of `BTCSendSwap::refresh_monitored_reverse_swaps`: poll and persist
the status of every monitored swap, then re-read the monitored set.  Returns
the updated store together with the function's return value. -/
def refresh_monitored_reverse_swaps (poll : ProviderStatusFn)
    (update_status : UpdateStatusFn) (store : List ReverseSwapInfo) :
    Except String (List ReverseSwapInfo × List ReverseSwapInfo) :=
  match refresh_go poll update_status (get_monitored_reverse_swaps store) store with
  | Except.error e => Except.error e
  | Except.ok store2 => Except.ok (store2, get_monitored_reverse_swaps store2)

/-- The claim loop of `execute_pending_reverse_swaps`: for each monitored swap
whose status is `LockTxConfirmed`, build the claim transaction (`?` — a builder
failure aborts the whole loop) and broadcast it, only logging the broadcast
result. -/
def execute_go (create_claim : ReverseSwapInfo → Except String Transaction)
    (broadcast : Transaction → Except String String) :
    List ReverseSwapInfo → Except String Unit
  | [] => Except.ok ()
  | rs :: rest =>
    if rs.status = ReverseSwapStatus.LockTxConfirmed then
      match create_claim rs with
      | Except.error e => Except.error e
      | Except.ok claim_tx =>
        let _claim_tx_broadcast_res := broadcast claim_tx
        execute_go create_claim broadcast rest
    else execute_go create_claim broadcast rest

/-- Model of `BTCSendSwap::execute_pending_reverse_swaps` (the whole
chain-tip monitoring cycle): refresh the monitored swaps' statuses, then
attempt a claim for every swap whose lock transaction is confirmed.  Returns
the store as left behind by the cycle. -/
def execute_pending_reverse_swaps (poll : ProviderStatusFn)
    (update_status : UpdateStatusFn)
    (create_claim : ReverseSwapInfo → Except String Transaction)
    (broadcast : Transaction → Except String String) (store : List ReverseSwapInfo) :
    Except String (List ReverseSwapInfo) :=
  match refresh_monitored_reverse_swaps poll update_status store with
  | Except.error e => Except.error e
  | Except.ok (store2, monitored) =>
    match execute_go create_claim broadcast monitored with
    | Except.error e => Except.error e
    | Except.ok _ => Except.ok store2

/-- Model of `BTCSendSwap::list_monitored`, which forwards to the store's
`get_monitored_reverse_swaps`. -/
def list_monitored (store : List ReverseSwapInfo) : List ReverseSwapInfo :=
  get_monitored_reverse_swaps store

/-! ## Concrete fixtures used by witnesses and counterexamples -/

/-- A base58 parser that accepts nothing; every theorem quantifying over the
base58 branch is instantiated with it. -/
def b58noneEx : String → Option Address := fun _ => none

/-- A concrete stand-in for `segwit_signature_hash` (the shape of its output is
irrelevant to every claim). -/
def sighashEx : SighashFn := fun _ index _ value _ => [index, value]

/-- A concrete stand-in for the secp256k1 DER signer. -/
def signEx : SignFn := fun _ h => 48 :: h

/-- A valid mainnet P2WSH address (witness v0, 32-byte program). -/
def lockStrEx : String := "bc1qrp33g0q5c5txsp9arysrx4k6zdkfs4nce4xj0gdcccefvpysxf3qccfmv3"

/-- A valid mainnet P2WPKH address (BIP-173 test vector). -/
def destStrEx : String := "bc1qw508d6qejxtdg4y5r3zarvary0c5xw7kv8f3t4"

/-- A valid testnet P2WSH address (BIP-173 test vector). -/
def tbStrEx : String := "tb1qrp33g0q5c5txsp9arysrx4k6zdkfs4nce4xj0gdcccefvpysxf3q0sl5k7"

def rsEx : ReverseSwapInfo :=
  { id := "abc", created_at := 0, local_preimage := [7], local_private_key := [9],
    destination_address := destStrEx,
    boltz_api_status := BoltzApiReverseSwapStatus.LockTxConfirmed,
    hodl_bolt11 := "lnbc", redeem_script := "00",
    cache := { lockup_address := lockStrEx, onchain_amount_sat := 100000 } }

def utxoEx : Utxo := { out := { txid := List.replicate 32 0, vout := 0 }, value := 100000 }

def utxoSmallEx : Utxo := { out := { txid := List.replicate 32 0, vout := 1 }, value := 1000 }

/-- The claim transaction the model builds from `rsEx` with one 100000-sat
confirmed UTXO at 1 sat/vbyte. -/
def claimTxEx : Transaction :=
  (create_claim_tx b58noneEx sighashEx signEx rsEx [utxoEx] 1).toOption.getD default


/-- The parsed destination address used by the fixtures. -/
def destAddrEx : Address := (Address.from_str b58noneEx destStrEx).getD default

/-- A fully populated raw row. -/
def goodRowEx : RawRow :=
  { id := some "abc", created_at := some 0, local_preimage := some [7],
    local_private_key := some [9], destination_address := some "dest",
    boltz_api_status := some BoltzApiReverseSwapStatus.SwapCreated,
    hodl_bolt11 := some "lnbc", redeem_script := some "00",
    lockup_address := some "lock", onchain_amount_sat := some 100000 }

/-- A raw row whose joined cache columns are missing (no matching
`reverse_swaps_info` row in the LEFT JOIN). -/
def badRowEx : RawRow :=
  { goodRowEx with lockup_address := none, onchain_amount_sat := none }

/-- Provider that accepts every create request (used to show the validation
failure is decided before the provider is consulted). -/
def providerOkEx : ProviderCreateFn := fun _ _ _ _ _ =>
  Except.ok (BoltzApiCreateReverseSwapResponse.BoltzApiSuccess
    { id := "abc", invoice := "lnbc", redeem_script := "00",
      onchain_amount := 100000, timeout_block_height := 100,
      lockup_address := lockStrEx })

def keysEx : SwapKeys :=
  { preimage := [7], priv_key := [9], preimage_hash_hex := "aa", public_key_hex := "bb" }

/-- Two monitored swaps; polling the first one fails. -/
def swapAEx : ReverseSwapInfo :=
  { rsEx with id := "a", boltz_api_status := BoltzApiReverseSwapStatus.SwapCreated }

def swapBEx : ReverseSwapInfo :=
  { rsEx with id := "b", boltz_api_status := BoltzApiReverseSwapStatus.SwapCreated }

def swapCEx : ReverseSwapInfo :=
  { rsEx with id := "c", boltz_api_status := BoltzApiReverseSwapStatus.SwapCreated }

def pollBoomEx : ProviderStatusFn := fun id =>
  if id = "a" then Except.error "boom" else Except.ok BoltzApiReverseSwapStatus.SwapCreated

def swapDEx : ReverseSwapInfo :=
  { rsEx with id := "d", boltz_api_status := BoltzApiReverseSwapStatus.SwapCreated }

def swapEEx : ReverseSwapInfo :=
  { rsEx with id := "e", boltz_api_status := BoltzApiReverseSwapStatus.SwapCreated }

/-- `swapEEx` after the provider reports its lock transaction confirmed. -/
def swapELockEx : ReverseSwapInfo :=
  { swapEEx with boltz_api_status := BoltzApiReverseSwapStatus.LockTxConfirmed }

/-- Poll that fails for swap "d" only (the second swap of its fixture batch). -/
def pollDEx : ProviderStatusFn := fun id =>
  if id = "d" then Except.error "down"
  else Except.ok BoltzApiReverseSwapStatus.SwapCreated

/-- Poll that reports the lock transaction confirmed for swap "e" only. -/
def pollEEx : ProviderStatusFn := fun id =>
  if id = "e" then Except.ok BoltzApiReverseSwapStatus.LockTxConfirmed
  else Except.ok BoltzApiReverseSwapStatus.SwapCreated

def pollOkEx : ProviderStatusFn := fun _ =>
  Except.ok BoltzApiReverseSwapStatus.SwapCreated

def buildOkEx : ReverseSwapInfo → Except String Transaction := fun _ => Except.ok default

/-- Claim builder that fails for swap "e" only. -/
def buildFailEEx : ReverseSwapInfo → Except String Transaction := fun rs =>
  if rs.id = "e" then Except.error "fee exceeds amount" else Except.ok default

/-- A persister whose SQLite layer always fails. -/
def persistFailEx : UpdateStatusFn := fun _ _ _ => Except.error "db"

def broadcastOkEx : Transaction → Except String String := fun _ => Except.ok "txid"

def broadcastErrEx : Transaction → Except String String := fun _ =>
  Except.error "rejected"

/-- Modelled from the spec: the precondition the claim states for `create` —
the destination parses as a valid address *for the configured network*; written
from the spec's words for comparison against the code's validation, which never
looks at the configured network. -/
def parses_for_network (b58 : String → Option Address) (net : Network) (s : String) :
    Bool :=
  match Address.from_str b58 s with
  | some a => a.network == net
  | none => false

/-! ## Claim C7 -/

/-- Claim C7: for every state of the swap store, `list_monitored()` returns
exactly the stored swaps whose status is non-terminal — no swap whose status is
`ClaimTxSeen` or `Expired` is included, and every stored swap with any other
status is included. -/
theorem c7_list_monitored_exactly_non_terminal (store : List ReverseSwapInfo)
    (rs : ReverseSwapInfo) :
    rs ∈ list_monitored store ↔
      rs ∈ store ∧ rs.status ≠ ReverseSwapStatus.ClaimTxSeen ∧
        rs.status ≠ ReverseSwapStatus.Expired := by
  have hcont : ∀ s : ReverseSwapStatus,
      [ReverseSwapStatus.Expired, ReverseSwapStatus.ClaimTxSeen].contains s = true ↔
        s = ReverseSwapStatus.Expired ∨ s = ReverseSwapStatus.ClaimTxSeen := by
    intro s
    cases s <;> decide
  simp only [list_monitored, get_monitored_reverse_swaps, List.mem_filter,
    decide_eq_true_eq]
  constructor
  · rintro ⟨hmem, hst⟩
    exact ⟨hmem, fun h => hst ((hcont _).mpr (Or.inr h)),
      fun h => hst ((hcont _).mpr (Or.inl h))⟩
  · rintro ⟨hmem, h1, h2⟩
    refine ⟨hmem, fun h => ?_⟩
    rcases (hcont _).mp h with h | h
    · exact h2 h
    · exact h1 h

/-! ## Claim C8 -/

/-- Counterexample for claim C8: updating the status of an id that is not
present in the store does not fail with `NotFound` — the underlying SQL
`UPDATE` matches zero rows and succeeds, leaving the (empty) store unchanged. -/
theorem c8_counterexample :
    update_reverse_swap_boltz_status [] "missing" BoltzApiReverseSwapStatus.SwapExpired
      = Except.ok [] := rfl

/-- Claim C8 (amended): `update_status(id, new_status)` on an id that is not in
the store succeeds and leaves the store unchanged (it does not fail with
`NotFound`); on a present id it succeeds and afterwards exactly the swaps with
that id have their status set to `new_status`, with all other fields and all
other swaps unchanged. -/
theorem c8_update_status_behaviour (store : List ReverseSwapInfo) (id : String)
    (st : BoltzApiReverseSwapStatus) :
    (id ∉ store.map (fun rs => rs.id) →
      update_reverse_swap_boltz_status store id st = Except.ok store) ∧
    (∀ store2, update_reverse_swap_boltz_status store id st = Except.ok store2 →
      store2.length = store.length ∧
      ∀ i : Nat, store2[i]? = (store[i]?).map (fun rs =>
        if rs.id = id then { rs with boltz_api_status := st } else rs)) := by
  constructor
  · intro hnot
    have hmap : store.map (fun rs =>
        if rs.id = id then { rs with boltz_api_status := st } else rs) = store := by
      have : ∀ rs ∈ store,
          (if rs.id = id then { rs with boltz_api_status := st } else rs) = rs := by
        intro rs hrs
        rw [if_neg]
        intro h
        exact hnot (List.mem_map.mpr ⟨rs, hrs, h⟩)
      calc store.map _ = store.map (fun rs => rs) := List.map_congr_left this
        _ = store := List.map_id store
    simp [update_reverse_swap_boltz_status, hmap]
  · intro store2 h
    have h2 : store2 = store.map (fun rs =>
        if rs.id = id then { rs with boltz_api_status := st } else rs) :=
      (Except.ok.inj h).symm
    subst h2
    exact ⟨List.length_map store _, fun i => List.getElem?_map _ store i⟩

/-- Witness for claim C8: a concrete store in which the updated id is absent;
the update succeeds as a no-op. -/
theorem c8_witness :
    "zzz" ∉ [rsEx].map (fun rs => rs.id) ∧
    update_reverse_swap_boltz_status [rsEx] "zzz" BoltzApiReverseSwapStatus.SwapExpired
      = Except.ok [rsEx] :=
  ⟨by decide,
   (c8_update_status_behaviour [rsEx] "zzz" BoltzApiReverseSwapStatus.SwapExpired).1
     (by decide)⟩

/-! ## Claim C10 -/

/-- One failing row poisons the whole collected list (`.map(|i| i.unwrap())`):
the model of `list_reverse_swaps` returns `none` (the panic). -/
theorem list_reverse_swaps_db_panics (rows : List RawRow) (row : RawRow) (e : String)
    (hmem : row ∈ rows) (herr : sql_row_to_reverse_swap row = Except.error e) :
    list_reverse_swaps_db rows = none := by
  induction rows with
  | nil => cases hmem
  | cons head tail ih =>
    rcases List.mem_cons.mp hmem with h | h
    · subst h
      simp [list_reverse_swaps_db, herr, Except.toOption]
    · cases hh : (sql_row_to_reverse_swap head).toOption with
      | none => simp [list_reverse_swaps_db, hh]
      | some v => simp [list_reverse_swaps_db, hh, ih h]

/-- Claim C10: if any persisted swap row fails to deserialize into a
`ReverseSwapInfo` (for example because the joined cache columns are missing),
`list_all` and the operations built on it (`list_monitored`, hence the
monitoring cycle's swap listing) panic via `unwrap` — modelled as `none` —
instead of returning an error. -/
theorem c10_failed_row_panics (rows : List RawRow) (row : RawRow) (e : String)
    (hmem : row ∈ rows) (herr : sql_row_to_reverse_swap row = Except.error e) :
    list_reverse_swaps_db rows = none ∧ get_monitored_reverse_swaps_db rows = none := by
  have h := list_reverse_swaps_db_panics rows row e hmem herr
  exact ⟨h, by simp [get_monitored_reverse_swaps_db, h]⟩

/-- Witness for claim C10: one well-formed row plus one row with missing cache
columns make the whole listing panic. -/
theorem c10_witness :
    list_reverse_swaps_db [goodRowEx, badRowEx] = none ∧
    get_monitored_reverse_swaps_db [goodRowEx, badRowEx] = none :=
  c10_failed_row_panics [goodRowEx, badRowEx] badRowEx "InvalidColumnType"
    (by simp) (by rfl)

/-! ## Claims C2 and C3 (missing builder error checks) -/

set_option maxRecDepth 4000 in
/-- Claim C2 finding (code bug): at an input whose computed fee (13625 sats at
100 sat/vbyte) exceeds the confirmed amount (1000 sats), the builder does not
fail with `FeeExceedsAmount`: the unchecked `confirmed_amount - fees` u64
subtraction wraps (release build; a debug build panics) and the builder
returns a transaction whose single output value is `2^64 - 12625` sats. -/
theorem c2_fee_exceeds_amount_not_detected :
    claim_tx_fees (unsigned_claim_tx destAddrEx [utxoSmallEx]).strippedsize 1 100 = 13625 ∧
    sum_confirmed [utxoSmallEx] = 1000 ∧
    (create_claim_tx b58noneEx sighashEx signEx rsEx [utxoSmallEx] 100).toOption.map
        (fun tx => tx.output.map fun o => o.value)
      = some [18446744073709538991] := by
  refine ⟨by decide, by decide, by decide⟩

set_option maxRecDepth 4000 in
/-- Claim C3 finding (code bug): when the set of confirmed UTXOs at the lockup
address is empty (confirmed amount zero), the builder does not fail with
`NoConfirmedFunds`: it returns a transaction with zero inputs whose output
value is the wrapped `0 - fees = 2^64 - 41` (release build; a debug build
panics). -/
theorem c3_no_confirmed_funds_not_detected :
    sum_confirmed ([] : List Utxo) = 0 ∧
    (create_claim_tx b58noneEx sighashEx signEx rsEx [] 1).toOption.map
        (fun tx => (tx.input.length, tx.output.map fun o => o.value))
      = some (0, [18446744073709551575]) := by
  refine ⟨by decide, by decide⟩

/-! ## Builder structure lemmas (shared by claims C1, C4 and C9) -/

/-- Setting the first output's value leaves the inputs untouched. -/
lemma set_first_output_value_input (tx : Transaction) (v : Nat) :
    (set_first_output_value tx v).input = tx.input := rfl

/-- The fee-adjusted transaction's inputs are the unsigned inputs. -/
lemma fee_adjusted_claim_tx_input (destination_addr : Address) (utxos : List Utxo)
    (sat_per_vbyte : Nat) :
    (fee_adjusted_claim_tx destination_addr utxos sat_per_vbyte).input
      = utxos.map (fun utxo =>
          { previous_output := utxo.out, script_sig := [], sequence := 0,
            witness := [] }) := rfl

/-- Reading an unsigned claim input (in or out of range) yields an input with
empty script-sig, zero sequence and empty witness, spending the corresponding
UTXO's outpoint. -/
lemma claim_txin_getD (utxos : List Utxo) (index : Nat) :
    ((utxos.map fun utxo =>
          ({ previous_output := utxo.out, script_sig := [], sequence := 0,
             witness := [] } : TxIn)).getD index default)
      = { previous_output := (utxos.getD index default).out, script_sig := [],
          sequence := 0, witness := [] } := by
  rw [List.getD_eq_getElem?_getD, List.getD_eq_getElem?_getD, List.getElem?_map]
  cases utxos[index]? <;> rfl

/-- Explicit form of the signed input list the builder produces. -/
lemma build_claim_tx_p2wsh_input (sighash : SighashFn) (sign : SignFn)
    (rs : ReverseSwapInfo) (destination_addr : Address) (redeem_script : List Nat)
    (utxos : List Utxo) (sat_per_vbyte : Nat) :
    (build_claim_tx_p2wsh sighash sign rs destination_addr redeem_script utxos
        sat_per_vbyte).input
      = (List.range utxos.length).map (fun index =>
          { previous_output := (utxos.getD index default).out,
            script_sig := [],
            sequence := 0,
            witness := [sign rs.local_private_key
                (sighash (fee_adjusted_claim_tx destination_addr utxos sat_per_vbyte)
                  index redeem_script (utxos.getD index default).value 1) ++ [1],
              rs.local_preimage, redeem_script] }) := by
  have hlen : (fee_adjusted_claim_tx destination_addr utxos sat_per_vbyte).input.length
      = utxos.length := by
    rw [fee_adjusted_claim_tx_input, List.length_map]
  show (List.range
      (fee_adjusted_claim_tx destination_addr utxos sat_per_vbyte).input.length).map _ = _
  rw [hlen]
  apply List.map_congr_left
  intro i _
  simp only [fee_adjusted_claim_tx_input, claim_txin_getD]

/-- The builder's outputs: a single output paying the destination the wrapped
`confirmed_amount - fees`. -/
lemma build_claim_tx_p2wsh_output (sighash : SighashFn) (sign : SignFn)
    (rs : ReverseSwapInfo) (destination_addr : Address) (redeem_script : List Nat)
    (utxos : List Utxo) (sat_per_vbyte : Nat) :
    (build_claim_tx_p2wsh sighash sign rs destination_addr redeem_script utxos
        sat_per_vbyte).output
      = [{ value := (sum_confirmed utxos + 2 ^ 64
            - claim_tx_fees (unsigned_claim_tx destination_addr utxos).strippedsize
                utxos.length sat_per_vbyte) % 2 ^ 64,
           script_pubkey := destination_addr.script_pubkey }] := rfl

/-- Successful runs of `create_claim_tx` are exactly the P2WSH-branch builds. -/
lemma create_claim_tx_ok (b58 : String → Option Address) (sighash : SighashFn)
    (sign : SignFn) (rs : ReverseSwapInfo) (utxos : List Utxo) (sat_per_vbyte : Nat)
    (tx : Transaction)
    (h : create_claim_tx b58 sighash sign rs utxos sat_per_vbyte = Except.ok tx) :
    ∃ destination_addr redeem_script,
      Address.from_str b58 rs.destination_address = some destination_addr ∧
      hexDecode rs.redeem_script = some redeem_script ∧
      tx = build_claim_tx_p2wsh sighash sign rs destination_addr redeem_script utxos
        sat_per_vbyte := by
  unfold create_claim_tx at h
  cases hl : Address.from_str b58 rs.cache.lockup_address with
  | none => rw [hl] at h; exact Except.noConfusion h
  | some lockup_addr =>
    simp only [hl] at h
    cases hd : Address.from_str b58 rs.destination_address with
    | none => rw [hd] at h; exact Except.noConfusion h
    | some destination_addr =>
      simp only [hd] at h
      cases hs : hexDecode rs.redeem_script with
      | none => rw [hs] at h; exact Except.noConfusion h
      | some redeem_script =>
        simp only [hs] at h
        cases ht : lockup_addr.address_type with
        | none => rw [ht] at h; exact Except.noConfusion h
        | some aty =>
          simp only [ht] at h
          cases aty with
          | P2wsh =>
            exact ⟨destination_addr, redeem_script, rfl, rfl, (Except.ok.inj h).symm⟩
          | P2pkh => exact Except.noConfusion h
          | P2sh => exact Except.noConfusion h
          | P2wpkh => exact Except.noConfusion h
          | P2tr => exact Except.noConfusion h

/-- Stripped length of a claim input: 36-byte outpoint, one length byte for the
empty script-sig, 4 sequence bytes. -/
lemma txInStrippedLen_mk (po : OutPoint) (w : List (List Nat)) :
    txInStrippedLen
        { previous_output := po, script_sig := [], sequence := 0, witness := w } = 41 :=
  rfl

/-- Sum of a constant-valued map. -/
lemma sum_map_const {α : Type} (l : List α) (c : Nat) :
    (l.map fun _ => c).sum = l.length * c := by
  induction l with
  | nil => simp
  | cons a t ih => simp [ih, Nat.succ_mul, Nat.add_comm]

/-- Signing only fills witnesses, so the signed transaction's stripped size is
the unsigned transaction's stripped size. -/
lemma strippedsize_build (sighash : SighashFn) (sign : SignFn) (rs : ReverseSwapInfo)
    (destination_addr : Address) (redeem_script : List Nat) (utxos : List Utxo)
    (sat_per_vbyte : Nat) :
    (build_claim_tx_p2wsh sighash sign rs destination_addr redeem_script utxos
        sat_per_vbyte).strippedsize
      = (unsigned_claim_tx destination_addr utxos).strippedsize := by
  unfold Transaction.strippedsize
  rw [build_claim_tx_p2wsh_input, build_claim_tx_p2wsh_output]
  simp only [unsigned_claim_tx, List.map_map, List.length_map, List.length_range,
    Function.comp_def, txInStrippedLen_mk, sum_map_const, txOutLen, List.map_cons,
    List.map_nil, List.sum_cons, List.sum_nil, List.length_cons, List.length_nil]

/-! ## Claim C9 -/

/-- Claim C9: every claim transaction the builder returns has version 2 and
lock time 0, and every one of its inputs has an empty script-sig and sequence
number 0, regardless of the swap record or UTXO set. -/
theorem c9_claim_tx_static_fields (b58 : String → Option Address) (sighash : SighashFn)
    (sign : SignFn) (rs : ReverseSwapInfo) (utxos : List Utxo) (sat_per_vbyte : Nat)
    (tx : Transaction)
    (h : create_claim_tx b58 sighash sign rs utxos sat_per_vbyte = Except.ok tx) :
    tx.version = 2 ∧ tx.lock_time = 0 ∧
      ∀ txin ∈ tx.input, txin.script_sig = [] ∧ txin.sequence = 0 := by
  obtain ⟨destination_addr, redeem_script, -, -, rfl⟩ :=
    create_claim_tx_ok b58 sighash sign rs utxos sat_per_vbyte tx h
  refine ⟨rfl, rfl, ?_⟩
  intro txin hmem
  rw [build_claim_tx_p2wsh_input] at hmem
  rcases List.mem_map.mp hmem with ⟨i, -, rfl⟩
  exact ⟨rfl, rfl⟩

set_option maxRecDepth 4000 in
/-- Witness for claim C9: the concrete fixture build succeeds and exhibits the
static fields. -/
theorem c9_witness :
    create_claim_tx b58noneEx sighashEx signEx rsEx [utxoEx] 1 = Except.ok claimTxEx ∧
    claimTxEx.version = 2 ∧ claimTxEx.lock_time = 0 ∧
    (claimTxEx.input.getD 0 default).script_sig = [] ∧
    (claimTxEx.input.getD 0 default).sequence = 0 := by
  have h : create_claim_tx b58noneEx sighashEx signEx rsEx [utxoEx] 1
      = Except.ok claimTxEx := by rfl
  obtain ⟨h1, h2, h3⟩ := c9_claim_tx_static_fields _ _ _ _ _ _ _ h
  have hm : (claimTxEx.input.getD 0 default) ∈ claimTxEx.input := by decide
  exact ⟨h, h1, h2, (h3 _ hm).1, (h3 _ hm).2⟩

/-! ## Claim C1 -/

set_option maxRecDepth 4000 in
/-- Counterexample for claim C1: with one confirmed 100000-sat UTXO at
1 sat/vbyte the built transaction has stripped size 82 and one input, so the
claimed fee is `ceil((82*4 + 217*1) * 1 / 4) = ceil(545/4) = 137`, but the code
charges `floor(545/4) = 136`: the output value is `100000 - 136`, not
`100000 - 137`. -/
theorem c1_counterexample :
    claim_tx_fees 82 1 1 = 136 ∧ spec_fee_ceil 82 1 1 = 137 ∧
    (create_claim_tx b58noneEx sighashEx signEx rsEx [utxoEx] 1).toOption.map
        (fun tx => (tx.strippedsize, tx.input.length, tx.output.map fun o => o.value))
      = some (82, 1, [100000 - 136]) := by
  refine ⟨by decide, by decide, by decide⟩

/-- Claim C1 (amended): for every claim transaction built, the fee charged is
`floor(weight * sat_per_vbyte / 4)` computed in wrapping u32 arithmetic — not
`ceil` — with `weight = stripped_size * 4 + 217 * number_of_inputs`, where 217
is the fixed HTLC witness-input weight constant and `sat_per_vbyte` is the
chain service's half-hour fee tier; the single output's value is the wrapping
u64 difference `confirmed_amount - fee`. -/
theorem c1_fee_floor (b58 : String → Option Address) (sighash : SighashFn)
    (sign : SignFn) (rs : ReverseSwapInfo) (utxos : List Utxo) (sat_per_vbyte : Nat)
    (tx : Transaction)
    (h : create_claim_tx b58 sighash sign rs utxos sat_per_vbyte = Except.ok tx) :
    tx.input.length = utxos.length ∧
    tx.output.map (fun o => o.value)
      = [(sum_confirmed utxos + 2 ^ 64
          - claim_tx_fees tx.strippedsize utxos.length sat_per_vbyte) % 2 ^ 64] := by
  obtain ⟨destination_addr, redeem_script, -, -, rfl⟩ :=
    create_claim_tx_ok b58 sighash sign rs utxos sat_per_vbyte tx h
  constructor
  · rw [build_claim_tx_p2wsh_input, List.length_map, List.length_range]
  · rw [strippedsize_build, build_claim_tx_p2wsh_output]
    rfl

set_option maxRecDepth 4000 in
/-- Witness for claim C1 (amended): the concrete fixture build satisfies the
floor-fee output equation. -/
theorem c1_witness :
    claimTxEx.input.length = [utxoEx].length ∧
    claimTxEx.output.map (fun o => o.value)
      = [(sum_confirmed [utxoEx] + 2 ^ 64
          - claim_tx_fees claimTxEx.strippedsize [utxoEx].length 1) % 2 ^ 64] :=
  c1_fee_floor b58noneEx sighashEx signEx rsEx [utxoEx] 1 claimTxEx (by rfl)

/-! ## Claim C4 -/

/-- Reading inside the list bound is plain indexing. -/
lemma getD_eq_getElem_of_lt {α : Type} [Inhabited α] (l : List α) (i : Nat)
    (h : i < l.length) : l.getD i default = l[i] := by
  rw [List.getD_eq_getElem?_getD, List.getElem?_eq_getElem h]
  rfl

/-- Erasing the witnesses of the signed transaction recovers exactly the
fee-adjusted transaction the signature hashes were computed over. -/
lemma clear_witnesses_build (sighash : SighashFn) (sign : SignFn)
    (rs : ReverseSwapInfo) (destination_addr : Address) (redeem_script : List Nat)
    (utxos : List Utxo) (sat_per_vbyte : Nat) :
    clear_witnesses
        (build_claim_tx_p2wsh sighash sign rs destination_addr redeem_script utxos
          sat_per_vbyte)
      = fee_adjusted_claim_tx destination_addr utxos sat_per_vbyte := by
  have hinp : (build_claim_tx_p2wsh sighash sign rs destination_addr redeem_script utxos
        sat_per_vbyte).input.map (fun i => { i with witness := [] })
      = (fee_adjusted_claim_tx destination_addr utxos sat_per_vbyte).input := by
    rw [build_claim_tx_p2wsh_input, fee_adjusted_claim_tx_input, List.map_map]
    apply List.ext_getElem
    · simp
    · intro i h1 h2
      have hi : i < utxos.length := by simpa using h2
      simp only [List.getElem_map, List.getElem_range, Function.comp_def,
        getD_eq_getElem_of_lt utxos i hi]
  unfold clear_witnesses
  rw [hinp]
  rfl

/-- Claim C4: for every input of every claim transaction produced, the witness
stack is exactly `[DER signature with the sighash-type byte (ALL = 0x01)
appended, local_preimage, redeem script bytes]` in that order, the signature
being the supplied ECDSA signer applied to `local_private_key` and the segwit
signature hash computed over the (witness-free) transaction from the redeem
script and that input's prior output value with sighash type ALL. -/
theorem c4_witness_stack_order (b58 : String → Option Address) (sighash : SighashFn)
    (sign : SignFn) (rs : ReverseSwapInfo) (utxos : List Utxo) (sat_per_vbyte : Nat)
    (tx : Transaction)
    (h : create_claim_tx b58 sighash sign rs utxos sat_per_vbyte = Except.ok tx) :
    ∃ redeem_script, hexDecode rs.redeem_script = some redeem_script ∧
      tx.input.length = utxos.length ∧
      ∀ (index : Nat) (h1 : index < tx.input.length) (h2 : index < utxos.length),
        tx.input[index].witness
          = [sign rs.local_private_key
              (sighash (clear_witnesses tx) index redeem_script utxos[index].value 1)
              ++ [1],
             rs.local_preimage, redeem_script] := by
  obtain ⟨destination_addr, redeem_script, -, hscr, rfl⟩ :=
    create_claim_tx_ok b58 sighash sign rs utxos sat_per_vbyte tx h
  refine ⟨redeem_script, hscr, ?_, ?_⟩
  · rw [build_claim_tx_p2wsh_input, List.length_map, List.length_range]
  · intro index h1 h2
    rw [clear_witnesses_build]
    rw [← getD_eq_getElem_of_lt _ index h1, build_claim_tx_p2wsh_input,
      List.getD_eq_getElem?_getD, List.getElem?_map, List.getElem?_range h2,
      Option.map_some', Option.getD_some, getD_eq_getElem_of_lt utxos index h2]

set_option maxRecDepth 4000 in
/-- Witness for claim C4: the concrete fixture's single input carries exactly
the witness stack `[sig ++ [0x01], preimage, redeem script]`. -/
theorem c4_witness :
    (claimTxEx.input.getD 0 default).witness
      = [signEx rsEx.local_private_key
          (sighashEx (clear_witnesses claimTxEx) 0 [0] utxoEx.value 1) ++ [1],
         rsEx.local_preimage, [0]] := by
  obtain ⟨scr, hscr, hlen, hw⟩ :=
    c4_witness_stack_order b58noneEx sighashEx signEx rsEx [utxoEx] 1 claimTxEx (by rfl)
  have hscr0 : scr = [0] := by
    have h0 : hexDecode rsEx.redeem_script = some [0] := by rfl
    rw [h0] at hscr
    exact (Option.some.inj hscr).symm
  subst hscr0
  have h1 : 0 < claimTxEx.input.length := by rw [hlen]; decide
  have h2 : 0 < ([utxoEx] : List Utxo).length := by decide
  exact hw 0 h1 h2

/-! ## Claim C6 -/

set_option maxRecDepth 4000 in
/-- Counterexample for claim C6: `tbStrEx` is a valid testnet address, hence
not a valid address for the configured `Bitcoin` network, yet `create` does not
fail with `InvalidAddress` — the code never compares the parsed network with
the configured one (its `_network` field is unused): the provider is consulted
and a record is persisted (the store grows from zero to one row). -/
theorem c6_counterexample :
    parses_for_network b58noneEx Network.Bitcoin tbStrEx = false ∧
    (create_reverse_swap b58noneEx providerOkEx [] keysEx 0 50000 tbStrEx "ph"
        "node").1.isOk = true ∧
    (create_reverse_swap b58noneEx providerOkEx [] keysEx 0 50000 tbStrEx "ph"
        "node").2.length = 1 := by
  refine ⟨by decide, by decide, by decide⟩

/-- Claim C6 (amended): for every create call whose `destination_address` does
not parse as a valid Bitcoin address of *any* network, create fails with the
invalid-address error, the store is unchanged, and the outcome is the same for
every provider behaviour (no provider call is made).  An address that is valid
for a different network than the configured one is accepted: the configured
network is never consulted. -/
theorem c6_invalid_address_rejected_before_side_effects (b58 : String → Option Address)
    (provider : ProviderCreateFn) (store : List ReverseSwapInfo) (keys : SwapKeys)
    (now : Int) (amount_sat : Nat) (dest pair_hash routing_node : String)
    (h : Address.from_str b58 dest = none) :
    create_reverse_swap b58 provider store keys now amount_sat dest pair_hash
        routing_node
      = (Except.error "Invalid destination address", store) := by
  unfold create_reverse_swap validate_create_reverse_swap
  rw [h]

/-- Witness for claim C6 (amended): a malformed destination string is rejected
with the store left empty, for the fixture provider. -/
theorem c6_witness :
    create_reverse_swap b58noneEx providerOkEx [] keysEx 0 1 "not-an-address" "ph"
        "node"
      = (Except.error "Invalid destination address", []) :=
  c6_invalid_address_rejected_before_side_effects b58noneEx providerOkEx [] keysEx 0 1
    "not-an-address" "ph" "node" (by rfl)

/-! ## Claim C5 -/

/-- A poll failure for any swap of the polled batch aborts the whole refresh
loop with an error, whatever the persister does. -/
lemma refresh_go_error_of_mem (poll : ProviderStatusFn)
    (update_status : UpdateStatusFn) :
    ∀ (l store : List ReverseSwapInfo) (rs : ReverseSwapInfo), rs ∈ l →
      (∃ e, poll rs.id = Except.error e) →
      ∃ e, refresh_go poll update_status l store = Except.error e := by
  intro l
  induction l with
  | nil => intro store rs h _; exact absurd h (List.not_mem_nil rs)
  | cons head tail ih =>
    intro store rs hmem herr
    cases hp : poll head.id with
    | error e2 => exact ⟨e2, by simp [refresh_go, hp]⟩
    | ok st =>
      rcases List.mem_cons.mp hmem with rfl | hmem2
      · obtain ⟨e, he⟩ := herr
        rw [hp] at he
        exact Except.noConfusion he
      · cases hu : update_status store head.id st with
        | ok s =>
          obtain ⟨e3, h3⟩ := ih s rs hmem2 herr
          exact ⟨e3, by simp [refresh_go, hp, hu, h3]⟩
        | error err =>
          obtain ⟨e3, h3⟩ := ih store rs hmem2 herr
          exact ⟨e3, by simp [refresh_go, hp, hu, h3]⟩

/-- When every poll of the batch succeeds, the refresh loop succeeds no matter
how often the persister fails (the persist result is only logged). -/
lemma refresh_go_ok_of_polls_ok (poll : ProviderStatusFn)
    (update_status : UpdateStatusFn) :
    ∀ (l store : List ReverseSwapInfo),
      (∀ rs ∈ l, ∃ st, poll rs.id = Except.ok st) →
      ∃ store2, refresh_go poll update_status l store = Except.ok store2 := by
  intro l
  induction l with
  | nil => intro store _; exact ⟨store, rfl⟩
  | cons head tail ih =>
    intro store hall
    obtain ⟨st, hst⟩ := hall head (List.mem_cons_self head tail)
    have htail : ∀ rs ∈ tail, ∃ st2, poll rs.id = Except.ok st2 :=
      fun rs h => hall rs (List.mem_cons_of_mem head h)
    cases hu : update_status store head.id st with
    | ok s =>
      obtain ⟨s2, h2⟩ := ih s htail
      exact ⟨s2, by simp [refresh_go, hst, hu, h2]⟩
    | error err =>
      obtain ⟨s2, h2⟩ := ih store htail
      exact ⟨s2, by simp [refresh_go, hst, hu, h2]⟩

/-- A builder failure for any claim-eligible swap of the batch aborts the whole
claim loop with an error. -/
lemma execute_go_error_of_mem
    (create_claim : ReverseSwapInfo → Except String Transaction)
    (broadcast : Transaction → Except String String) :
    ∀ (l : List ReverseSwapInfo) (rs : ReverseSwapInfo), rs ∈ l →
      rs.status = ReverseSwapStatus.LockTxConfirmed →
      (∃ e, create_claim rs = Except.error e) →
      ∃ e, execute_go create_claim broadcast l = Except.error e := by
  intro l
  induction l with
  | nil => intro rs h _ _; exact absurd h (List.not_mem_nil rs)
  | cons head tail ih =>
    intro rs hmem hstatus herr
    rcases List.mem_cons.mp hmem with rfl | hmem2
    · obtain ⟨e, he⟩ := herr
      exact ⟨e, by simp [execute_go, hstatus, he]⟩
    · by_cases hh : head.status = ReverseSwapStatus.LockTxConfirmed
      · cases hc : create_claim head with
        | error e2 => exact ⟨e2, by simp [execute_go, hh, hc]⟩
        | ok t =>
          obtain ⟨e3, h3⟩ := ih rs hmem2 hstatus herr
          exact ⟨e3, by simp [execute_go, hh, hc, h3]⟩
      · obtain ⟨e3, h3⟩ := ih rs hmem2 hstatus herr
        exact ⟨e3, by simp [execute_go, hh, h3]⟩

/-- The claim loop's outcome never depends on the broadcast results, which are
only logged. -/
lemma execute_go_broadcast_irrelevant
    (create_claim : ReverseSwapInfo → Except String Transaction)
    (broadcast broadcast2 : Transaction → Except String String) :
    ∀ l : List ReverseSwapInfo,
      execute_go create_claim broadcast l = execute_go create_claim broadcast2 l := by
  intro l
  induction l with
  | nil => rfl
  | cons head tail ih =>
    by_cases hh : head.status = ReverseSwapStatus.LockTxConfirmed
    · cases hc : create_claim head with
      | error e => simp [execute_go, hh, hc]
      | ok t => simp [execute_go, hh, hc, ih]
    · simp [execute_go, hh, ih]

/-- Counterexample for claim C5: two monitored swaps, and polling the first
one's status fails; the claim says every other monitored swap is still polled
and the cycle itself does not fail, but the whole cycle aborts with the first
swap's error. -/
theorem c5_counterexample :
    execute_pending_reverse_swaps pollBoomEx update_reverse_swap_boltz_status
        buildOkEx broadcastOkEx [swapAEx, swapBEx]
      = Except.error "boom" := rfl

/-- Claim C5 (amended): during one chain-tip monitoring cycle, a provider
status-poll error for any monitored swap, or a builder error for any
claim-eligible swap of the refreshed batch, aborts the entire cycle with an
error (the remaining swaps of the batch are not processed this cycle); only
persistence failures while saving a polled status, and broadcast failures, are
logged without aborting the cycle. -/
theorem c5_single_failure_aborts_whole_cycle (poll : ProviderStatusFn)
    (update_status : UpdateStatusFn)
    (create_claim : ReverseSwapInfo → Except String Transaction)
    (broadcast : Transaction → Except String String) (store : List ReverseSwapInfo) :
    (∀ rs ∈ get_monitored_reverse_swaps store, (∃ e, poll rs.id = Except.error e) →
        ∃ e, execute_pending_reverse_swaps poll update_status create_claim broadcast
          store = Except.error e) ∧
    (∀ store2 monitored,
        refresh_monitored_reverse_swaps poll update_status store
          = Except.ok (store2, monitored) →
        ∀ rs ∈ monitored, rs.status = ReverseSwapStatus.LockTxConfirmed →
        (∃ e, create_claim rs = Except.error e) →
        ∃ e, execute_pending_reverse_swaps poll update_status create_claim broadcast
          store = Except.error e) ∧
    ((∀ rs ∈ get_monitored_reverse_swaps store, ∃ st, poll rs.id = Except.ok st) →
        ∃ store2 monitored,
          refresh_monitored_reverse_swaps poll update_status store
            = Except.ok (store2, monitored)) ∧
    (∀ broadcast2,
        execute_pending_reverse_swaps poll update_status create_claim broadcast store
          = execute_pending_reverse_swaps poll update_status create_claim broadcast2
            store) := by
  refine ⟨?_, ?_, ?_, ?_⟩
  · intro rs hmem herr
    obtain ⟨e, he⟩ := refresh_go_error_of_mem poll update_status
      (get_monitored_reverse_swaps store) store rs hmem herr
    exact ⟨e, by simp [execute_pending_reverse_swaps,
      refresh_monitored_reverse_swaps, he]⟩
  · intro store2 monitored hrefresh rs hmem hstatus herr
    obtain ⟨e, he⟩ := execute_go_error_of_mem create_claim broadcast monitored rs
      hmem hstatus herr
    exact ⟨e, by simp [execute_pending_reverse_swaps, hrefresh, he]⟩
  · intro hall
    obtain ⟨store2, h2⟩ := refresh_go_ok_of_polls_ok poll update_status
      (get_monitored_reverse_swaps store) store hall
    exact ⟨store2, get_monitored_reverse_swaps store2,
      by simp [refresh_monitored_reverse_swaps, h2]⟩
  · intro broadcast2
    simp only [execute_pending_reverse_swaps,
      execute_go_broadcast_irrelevant create_claim broadcast broadcast2]

/-- Witness for claim C5 (amended), exercising all four clauses at concrete
inputs: a poll failure at the second monitored swap aborts the cycle; a
builder failure for the second, non-head claim-eligible swap of the refreshed
batch aborts the cycle; with every poll succeeding, an always-failing persister
does not abort the refresh; and the cycle's outcome does not depend on the
broadcast outcome. -/
theorem c5_witness :
    (∃ e, execute_pending_reverse_swaps pollDEx update_reverse_swap_boltz_status
        buildOkEx broadcastOkEx [swapCEx, swapDEx] = Except.error e) ∧
    (∃ e, execute_pending_reverse_swaps pollEEx update_reverse_swap_boltz_status
        buildFailEEx broadcastOkEx [swapCEx, swapEEx] = Except.error e) ∧
    (∃ store2 monitored, refresh_monitored_reverse_swaps pollOkEx persistFailEx
        [swapCEx] = Except.ok (store2, monitored)) ∧
    (execute_pending_reverse_swaps pollEEx update_reverse_swap_boltz_status
        buildOkEx broadcastOkEx [swapCEx, swapEEx]
      = execute_pending_reverse_swaps pollEEx update_reverse_swap_boltz_status
          buildOkEx broadcastErrEx [swapCEx, swapEEx]) := by
  refine ⟨?_, ?_, ?_, ?_⟩
  · exact (c5_single_failure_aborts_whole_cycle pollDEx
      update_reverse_swap_boltz_status buildOkEx broadcastOkEx
      [swapCEx, swapDEx]).1 swapDEx (by decide) ⟨"down", by rfl⟩
  · exact (c5_single_failure_aborts_whole_cycle pollEEx
      update_reverse_swap_boltz_status buildFailEEx broadcastOkEx
      [swapCEx, swapEEx]).2.1 [swapCEx, swapELockEx] [swapCEx, swapELockEx]
      (by rfl) swapELockEx (by decide) (by rfl) ⟨"fee exceeds amount", by rfl⟩
  · exact (c5_single_failure_aborts_whole_cycle pollOkEx persistFailEx buildOkEx
      broadcastOkEx [swapCEx]).2.2.1
      (by intro rs _; exact ⟨BoltzApiReverseSwapStatus.SwapCreated, rfl⟩)
  · exact (c5_single_failure_aborts_whole_cycle pollEEx
      update_reverse_swap_boltz_status buildOkEx broadcastOkEx
      [swapCEx, swapEEx]).2.2.2 broadcastErrEx

end BreezRS
